import Mathlib

/-!
# Verification of the `SiteScripts` client behavior

Shallow embedding of the page-behavior script of this repository: the
gallery scan (`getGalleryItems`), the panel toggler (`setupPanels`), the
lightbox overlay state machine (`SiteScripts` component state plus its
event handlers), and the responsive footer relocation
(`setupFooterCopyright`).  DOM state that the handlers read or write
(CSS classes, the gallery item list, the active index, the loading flag)
is made explicit; every handler becomes a pure function from state to
state, together with the `preventDefault` / `stopPropagation` flags it
sets on the event.
-/

namespace SiteScripts

/-! ## Gallery scan (`getGalleryItems`) -/

/-- `GalleryItem`: `{ href: string; caption?: string }`. -/
structure GalleryItem where
  href : String
  caption : Option String
deriving Repr, DecidableEq

/-- A child node of a thumbnail anchor's parent element: either the anchor
itself (`self`) or a sibling element with its outer markup. -/
inductive SibNode where
  | self
  | elem (outerHTML : String)
deriving Repr, DecidableEq

/-- `outerHTML` of a sibling node; for `self` the value is never consulted,
because the scan filters the anchor itself out before reading markup. -/
def SibNode.outerHTML : SibNode → String
  | .self => ""
  | .elem h => h

/-- One anchor matched by `#main .thumb > a.image`: its `href` attribute
(`none` when absent) and the children of its parent element in document
order (`none` when `parentElement` is null, matching `?.children ?? []`). -/
structure ThumbAnchor where
  hrefAttr : Option String
  parentChildren : Option (List SibNode)
deriving Repr, DecidableEq

/-- The caption string built for one anchor: the outer markup of the
parent's children excluding the anchor itself, concatenated. -/
def captionString (a : ThumbAnchor) : String :=
  String.join
    (((a.parentChildren.getD []).filter
        (fun n => decide (n ≠ SibNode.self))).map SibNode.outerHTML)

/-- `getGalleryItems`: map each scanned anchor to a gallery item; `href`
falls back to `""` (`getAttribute("href") ?? ""`) and the caption becomes
`undefined` when the concatenation is empty (`caption || undefined`). -/
def getGalleryItems (anchors : List ThumbAnchor) : List GalleryItem :=
  anchors.map (fun a =>
    let caption := captionString a
    { href := a.hrefAttr.getD ""
      caption := if caption = "" then none else some caption })

/-! ## Panel toggler (`setupPanels`) -/

/-- One entry of `panelMap`: the panel's `active` class and the `active`
classes of its toggle controls. -/
structure PanelEntry where
  active : Bool
  togglesActive : List Bool
deriving Repr, DecidableEq

/-- The class state `setupPanels` manipulates: the panels (in document
order) and the body's `content-active` class. -/
structure PanelsState where
  panels : List PanelEntry
  contentActive : Bool
deriving Repr, DecidableEq

/-- Effect of `hidePanel` on one entry: remove `active` from the panel and
from each of its toggles. -/
def hideEntry (p : PanelEntry) : PanelEntry :=
  { active := false, togglesActive := p.togglesActive.map (fun _ => false) }

/-- Effect of the activation half of `showPanel` on one entry: add
`active` to the panel and to each of its toggles. -/
def showEntry (p : PanelEntry) : PanelEntry :=
  { active := true, togglesActive := p.togglesActive.map (fun _ => true) }

/-- `hidePanel(panel, toggles)` for the panel at position `i`: deactivate
it and its toggles and remove `content-active` from the body. -/
def hidePanel (i : Nat) (s : PanelsState) : PanelsState :=
  { panels :=
      match s.panels.get? i with
      | some p => s.panels.set i (hideEntry p)
      | none => s.panels
    contentActive := false }

/-- `panelMap.forEach(entry => hidePanel(entry.panel, entry.toggles))`:
every panel and toggle is deactivated and `content-active` removed. -/
def hideAllPanels (s : PanelsState) : PanelsState :=
  { panels := s.panels.map hideEntry, contentActive := false }

/-- `showPanel(panel, toggles)`: first hide every panel, then activate the
panel at `i` together with its toggles and add `content-active`. -/
def showPanel (i : Nat) (s : PanelsState) : PanelsState :=
  { panels :=
      match (hideAllPanels s).panels.get? i with
      | some p => (hideAllPanels s).panels.set i (showEntry p)
      | none => (hideAllPanels s).panels
    contentActive := true }

/-- Whether the panel at position `i` carries the `active` class. -/
def panelActive (s : PanelsState) (i : Nat) : Bool :=
  match s.panels.get? i with
  | some p => p.active
  | none => false

/-- `togglePanel(panel, toggles)`: hide when active, show otherwise. -/
def togglePanel (i : Nat) (s : PanelsState) : PanelsState :=
  if panelActive s i then hidePanel i s else showPanel i s

/-- Result of a panel-related event handler: the new class state plus the
`preventDefault` / `stopPropagation` calls made on the event. -/
structure PanelHandlerResult where
  state : PanelsState
  prevented : Bool
  stopped : Bool
deriving Repr, DecidableEq

/-- `onToggleClick` for a toggle of the panel at `i`: prevent default,
stop propagation, toggle the panel. -/
def onToggleClick (i : Nat) (s : PanelsState) : PanelHandlerResult :=
  { state := togglePanel i s, prevented := true, stopped := true }

/-- `onCloseClick` for the closer of the panel at `i`: prevent default,
hide that panel. -/
def onCloseClick (i : Nat) (s : PanelsState) : PanelHandlerResult :=
  { state := hidePanel i s, prevented := true, stopped := false }

/-- `onBodyClick`: when the body has `content-active`, prevent default,
stop propagation and hide every panel; otherwise do nothing. -/
def onBodyClick (s : PanelsState) : PanelHandlerResult :=
  if s.contentActive then
    { state := hideAllPanels s, prevented := true, stopped := true }
  else
    { state := s, prevented := false, stopped := false }

/-- `onKeyUp`: on `Escape` while the body has `content-active`, prevent
default, stop propagation and hide every panel; otherwise do nothing. -/
def onKeyUp (key : String) (s : PanelsState) : PanelHandlerResult :=
  if key = "Escape" ∧ s.contentActive = true then
    { state := hideAllPanels s, prevented := true, stopped := true }
  else
    { state := s, prevented := false, stopped := false }

/-- The panel-related events the listeners installed by `setupPanels`
react to. -/
inductive PanelEvent where
  | toggleClick (i : Nat)
  | closerClick (i : Nat)
  | bodyClick
  | keyUp (key : String)
deriving Repr, DecidableEq

/-- State transition of one panel event. -/
def panelStep (e : PanelEvent) (s : PanelsState) : PanelsState :=
  match e with
  | .toggleClick i => (onToggleClick i s).state
  | .closerClick i => (onCloseClick i s).state
  | .bodyClick => (onBodyClick s).state
  | .keyUp k => (onKeyUp k s).state

/-- Number of panels carrying the `active` class. -/
def activeCount (s : PanelsState) : Nat :=
  s.panels.countP (fun p => p.active)

/-- The invariant: at most one panel carries the `active` class. -/
def atMostOneActive (s : PanelsState) : Prop :=
  activeCount s ≤ 1

instance (s : PanelsState) : Decidable (atMostOneActive s) := by
  unfold atMostOneActive; infer_instance

/-! ## Lightbox overlay (`SiteScripts` component state and handlers) -/

/-- The React state of the component: `items`, `isOpen`, `activeIndex`,
`isLoading`. -/
structure LightboxState where
  items : List GalleryItem
  isOpen : Bool
  activeIndex : Nat
  isLoading : Bool
deriving Repr, DecidableEq

/-- `items[activeIndex]` (`undefined` out of range). -/
def activeItem (s : LightboxState) : Option GalleryItem :=
  s.items.get? s.activeIndex

/-- `(index + 1) % items.length`. -/
def nextIndex (i n : Nat) : Nat := (i + 1) % n

/-- `(index - 1 + items.length) % items.length`, computed over the
integers as in JavaScript; the dividend is nonnegative whenever `n ≥ 1`,
so `%` agrees with Euclidean remainder. -/
def prevIndex (i n : Nat) : Nat :=
  (((i : Int) - 1 + (n : Int)) % (n : Int)).toNat

/-- Result of the lightbox `onKeyDown` handler: the new component state
and whether `preventDefault` was called. -/
structure KeyDownResult where
  state : LightboxState
  prevented : Bool
deriving Repr, DecidableEq

/-- The lightbox `onKeyDown` handler: early return unless the lightbox is
open and the item list nonempty; then three sequential `if`s on the key,
as in the source (the tested keys are pairwise distinct). -/
def lightboxKeyDown (key : String) (s : LightboxState) : KeyDownResult :=
  if s.isOpen = false then { state := s, prevented := false }
  else if s.items.length = 0 then { state := s, prevented := false }
  else
    let r0 : KeyDownResult := { state := s, prevented := false }
    let r1 :=
      if key = "Escape" then
        { state := { r0.state with isOpen := false }, prevented := true }
      else r0
    let r2 :=
      if key = "ArrowRight" ∨ key = " " then
        { state :=
            { r1.state with
                activeIndex := nextIndex r1.state.activeIndex s.items.length
                isLoading := true }
          prevented := true }
      else r1
    if key = "ArrowLeft" then
      { state :=
          { r2.state with
              activeIndex := prevIndex r2.state.activeIndex s.items.length
              isLoading := true }
        prevented := true }
    else r2

/-- Result of a lightbox click handler. -/
structure LbClickResult where
  state : LightboxState
  prevented : Bool
  stopped : Bool
deriving Repr, DecidableEq

/-- The click handler installed on the gallery anchor at `index`: prevent
default, stop propagation, set the index, set loading, open. -/
def anchorClick (index : Nat) (s : LightboxState) : LbClickResult :=
  { state := { s with activeIndex := index, isLoading := true, isOpen := true }
    prevented := true, stopped := true }

/-- `nav-previous` `onClick`: stop propagation, step the index back with
wraparound, set loading. -/
def navPreviousClick (s : LightboxState) : LbClickResult :=
  { state :=
      { s with
          activeIndex := prevIndex s.activeIndex s.items.length
          isLoading := true }
    prevented := false, stopped := true }

/-- `nav-next` `onClick`: stop propagation, step the index forward with
wraparound, set loading. -/
def navNextClick (s : LightboxState) : LbClickResult :=
  { state :=
      { s with
          activeIndex := nextIndex s.activeIndex s.items.length
          isLoading := true }
    prevented := false, stopped := true }

/-- Whether the preload effect issues a preload: its guard is
`if (!isOpen || !activeItem?.href) return;`, and the empty string is
falsy in JavaScript. -/
def preloadIssued (s : LightboxState) : Bool :=
  s.isOpen &&
    (match activeItem s with
     | some it => decide (it.href ≠ "")
     | none => false)

/-- `handleComplete`, installed as both `onload` and `onerror` of the
preload image, and likewise the body of the visible image's `onLoad` and
`onError` props: clear the loading flag. -/
def handleComplete (s : LightboxState) : LightboxState :=
  { s with isLoading := false }

/-- Whether the overlay markup is rendered: the component returns `null`
when `!isOpen || !activeItem`, so the overlay's controls and image only
exist (and can only fire events) when this holds. -/
def rendered (s : LightboxState) : Bool :=
  s.isOpen && (activeItem s).isSome

/-- Events delivered to the lightbox: gallery-anchor clicks, the window
`keydown` listener, clicks on the rendered overlay controls, the visible
image's load/error, and the preload image's load/error. -/
inductive LbEvent where
  | anchorClick (index : Nat)
  | keyDown (key : String)
  | navPreviousClick
  | navNextClick
  | closerClick
  | overlayClick
  | popupBackgroundClick
  | imgLoad
  | imgError
  | preloadLoad
  | preloadError
deriving Repr, DecidableEq

/-- State transition of one lightbox event.  Handlers living on rendered
markup (navigation, closer, overlay, popup backdrop, the visible image)
can only fire while `rendered`; the preload image's callbacks are
installed exactly while the effect has run and not been cleaned up,
i.e. while `preloadIssued`. -/
def lbStep (e : LbEvent) (s : LightboxState) : LightboxState :=
  match e with
  | .anchorClick i => (anchorClick i s).state
  | .keyDown k => (lightboxKeyDown k s).state
  | .navPreviousClick => if rendered s then (navPreviousClick s).state else s
  | .navNextClick => if rendered s then (navNextClick s).state else s
  | .closerClick => if rendered s then { s with isOpen := false } else s
  | .overlayClick => if rendered s then { s with isOpen := false } else s
  | .popupBackgroundClick => if rendered s then { s with isOpen := false } else s
  | .imgLoad => if rendered s then handleComplete s else s
  | .imgError => if rendered s then handleComplete s else s
  | .preloadLoad => if preloadIssued s then handleComplete s else s
  | .preloadError => if preloadIssued s then handleComplete s else s

/-- The whole page's key-relevant state: the panel classes and the
lightbox component state. -/
structure PageState where
  panels : PanelsState
  lb : LightboxState
deriving Repr, DecidableEq

/-- A `keydown` on the page: the only `keydown` listener is the
lightbox's (`setupPanels` listens to `click` and `keyup` only), so a
`keydown` leaves the panel classes untouched. -/
def pageKeyDown (key : String) (p : PageState) : PageState :=
  { p with lb := (lightboxKeyDown key p.lb).state }

/-- A `keyup` on the page: the only `keyup` listener is `setupPanels`'
`onKeyUp`, so a `keyup` leaves the lightbox state untouched. -/
def pageKeyUp (key : String) (p : PageState) : PageState :=
  { p with panels := (onKeyUp key p.panels).state }

/-! ## Footer relocation (`setupFooterCopyright`) -/

/-- Where the copyright block currently sits: its original container
(`parent`) or the narrow-layout container (`lastParent`). -/
inductive CopyrightLocation where
  | originalParent
  | narrowContainer
deriving Repr, DecidableEq

/-- Whether `window.matchMedia("(max-width: 980px)")` matches: a
`max-width` query matches exactly when the viewport width is at most the
given length. -/
def mediaQueryMatches (width : Nat) : Bool :=
  width ≤ 980

/-- `updateLocation`: append the copyright to `lastParent` when the query
matches, to `parent` otherwise. -/
def updateLocation (queryMatches : Bool) : CopyrightLocation :=
  if queryMatches then .narrowContainer else .originalParent

/-- `setupFooterCopyright`: run `updateLocation` once at setup (at
viewport width `initialWidth`) and again on every media-query change
event (at the widths in `changeWidths`, in order). -/
def footerCopyrightLocation (initialWidth : Nat) (changeWidths : List Nat) :
    CopyrightLocation :=
  changeWidths.foldl (fun _ w => updateLocation (mediaQueryMatches w))
    (updateLocation (mediaQueryMatches initialWidth))

/-! ## Helper lemmas about the panel invariant -/

lemma hideEntry_active (p : PanelEntry) : (hideEntry p).active = false := rfl

lemma showEntry_active (p : PanelEntry) : (showEntry p).active = true := rfl

lemma countP_active_map_hide (l : List PanelEntry) :
    (l.map hideEntry).countP (fun p => p.active) = 0 := by
  induction l with
  | nil => rfl
  | cons a l ih => rw [List.map_cons, List.countP_cons]; simp [hideEntry, ih]

lemma countP_active_set_le (l : List PanelEntry) (i : Nat) (v : PanelEntry)
    (hv : v.active = false) :
    (l.set i v).countP (fun p => p.active) ≤ l.countP (fun p => p.active) := by
  induction l generalizing i with
  | nil => simp
  | cons a l ih =>
    cases i with
    | zero =>
      rw [List.set_cons_zero, List.countP_cons, List.countP_cons]
      simp only [hv]
      simp
    | succ j =>
      rw [List.set_cons_succ, List.countP_cons, List.countP_cons]
      exact Nat.add_le_add_right (ih j) _

lemma countP_active_set_le_succ (l : List PanelEntry) (i : Nat) (v : PanelEntry) :
    (l.set i v).countP (fun p => p.active) ≤ l.countP (fun p => p.active) + 1 := by
  induction l generalizing i with
  | nil => simp
  | cons a l ih =>
    cases i with
    | zero =>
      rw [List.set_cons_zero, List.countP_cons, List.countP_cons]
      have h1 : (if v.active = true then 1 else 0) ≤ 1 := by
        split <;> omega
      omega
    | succ j =>
      rw [List.set_cons_succ, List.countP_cons, List.countP_cons]
      have := ih j
      omega

lemma activeCount_hideAll (s : PanelsState) : activeCount (hideAllPanels s) = 0 :=
  countP_active_map_hide s.panels

lemma atMostOne_showPanel (s : PanelsState) (i : Nat) :
    atMostOneActive (showPanel i s) := by
  unfold atMostOneActive activeCount showPanel
  cases h : (hideAllPanels s).panels.get? i with
  | none =>
    simp only [h]
    rw [show (hideAllPanels s).panels = s.panels.map hideEntry from rfl]
    rw [countP_active_map_hide]
    omega
  | some p =>
    simp only [h]
    have h1 := countP_active_set_le_succ (hideAllPanels s).panels i (showEntry p)
    rw [show (hideAllPanels s).panels = s.panels.map hideEntry from rfl,
        countP_active_map_hide] at h1
    exact h1

lemma atMostOne_hidePanel (s : PanelsState) (i : Nat)
    (h : atMostOneActive s) : atMostOneActive (hidePanel i s) := by
  unfold atMostOneActive activeCount hidePanel
  unfold atMostOneActive activeCount at h
  cases hp : s.panels.get? i with
  | none => simpa using h
  | some p =>
    simp only [hp]
    exact le_trans (countP_active_set_le s.panels i (hideEntry p) rfl) h

lemma atMostOne_hideAll (s : PanelsState) : atMostOneActive (hideAllPanels s) := by
  unfold atMostOneActive
  rw [activeCount_hideAll]
  omega

lemma get?_some_lt {α : Type} {l : List α} {i : Nat} {a : α}
    (h : l.get? i = some a) : i < l.length :=
  (List.get?_eq_some.mp h).1

lemma hideAllPanels_get (s : PanelsState) (j : Nat) :
    (hideAllPanels s).panels.get? j = (s.panels.get? j).map hideEntry :=
  List.get?_map hideEntry s.panels j

lemma showPanel_get_self (s : PanelsState) (i : Nat) (p : PanelEntry)
    (hp : s.panels.get? i = some p) :
    (showPanel i s).panels.get? i = some (showEntry (hideEntry p)) := by
  have hh : (hideAllPanels s).panels.get? i = some (hideEntry p) := by
    rw [hideAllPanels_get, hp]; rfl
  have hlt : i < (hideAllPanels s).panels.length := get?_some_lt hh
  unfold showPanel
  simp only [hh]
  exact List.get?_set_eq_of_lt _ hlt

lemma showPanel_get_other (s : PanelsState) (i j : Nat) (hji : j ≠ i) :
    (showPanel i s).panels.get? j = (s.panels.get? j).map hideEntry := by
  unfold showPanel
  cases h : (hideAllPanels s).panels.get? i with
  | none =>
    simp only [h]
    exact hideAllPanels_get s j
  | some p =>
    simp only [h]
    rw [List.get?_set_ne _ _ (fun hij => hji hij.symm)]
    exact hideAllPanels_get s j

lemma panelActive_showPanel_other (s : PanelsState) (i j : Nat) (hji : j ≠ i) :
    panelActive (showPanel i s) j = false := by
  unfold panelActive
  rw [showPanel_get_other s i j hji]
  cases s.panels.get? j <;> simp [hideEntry]

lemma hidePanel_get_self (s : PanelsState) (i : Nat) (p : PanelEntry)
    (hp : s.panels.get? i = some p) :
    (hidePanel i s).panels.get? i = some (hideEntry p) := by
  unfold hidePanel
  simp only [hp]
  exact List.get?_set_eq_of_lt _ (get?_some_lt hp)

/-- C2: at most one panel is ever active: every panel event preserves the
at-most-one-active invariant, activating a panel always yields a state
with at most one active panel, and after `showPanel i` every panel other
than `i` is inactive. -/
theorem panels_at_most_one_active :
    (∀ (s : PanelsState) (e : PanelEvent),
        atMostOneActive s → atMostOneActive (panelStep e s)) ∧
    (∀ (s : PanelsState) (i : Nat), atMostOneActive (showPanel i s)) ∧
    (∀ (s : PanelsState) (i j : Nat), j ≠ i →
        panelActive (showPanel i s) j = false) := by
  refine ⟨?_, atMostOne_showPanel, ?_⟩
  · intro s e h
    cases e with
    | toggleClick i =>
      simp only [panelStep, onToggleClick, togglePanel]
      split
      · exact atMostOne_hidePanel s i h
      · exact atMostOne_showPanel s i
    | closerClick i =>
      exact atMostOne_hidePanel s i h
    | bodyClick =>
      simp only [panelStep, onBodyClick]
      split
      · exact atMostOne_hideAll s
      · exact h
    | keyUp k =>
      simp only [panelStep, onKeyUp]
      split
      · exact atMostOne_hideAll s
      · exact h
  · exact panelActive_showPanel_other

/-- Witness for C2 at a concrete two-panel state. -/
theorem panels_at_most_one_active_witness :
    atMostOneActive
      (panelStep (PanelEvent.toggleClick 0)
        { panels := [⟨false, [false]⟩, ⟨true, [true]⟩], contentActive := true }) ∧
    panelActive
      (showPanel 0 { panels := [⟨false, [false]⟩, ⟨true, [true]⟩], contentActive := true })
      1 = false :=
  ⟨panels_at_most_one_active.1 _ (PanelEvent.toggleClick 0) (by decide),
   panels_at_most_one_active.2.2 _ 0 1 (by decide)⟩

/-- C5: clicking a toggle control flips its panel: the handler prevents
default and stops propagation; when the panel is inactive it deactivates
every other panel, activates the panel and its toggles and adds the
body's `content-active` class; when the panel is active it deactivates
it, its toggles, and removes `content-active`. -/
theorem toggle_click_flips_panel (s : PanelsState) (i : Nat) (p : PanelEntry)
    (hp : s.panels.get? i = some p) :
    (onToggleClick i s).prevented = true ∧
    (onToggleClick i s).stopped = true ∧
    (p.active = false →
        (onToggleClick i s).state = showPanel i s ∧
        panelActive (onToggleClick i s).state i = true ∧
        (∀ j, j ≠ i → panelActive (onToggleClick i s).state j = false) ∧
        (∃ q, (onToggleClick i s).state.panels.get? i = some q ∧
            q.active = true ∧ ∀ b ∈ q.togglesActive, b = true) ∧
        (onToggleClick i s).state.contentActive = true) ∧
    (p.active = true →
        (onToggleClick i s).state = hidePanel i s ∧
        panelActive (onToggleClick i s).state i = false ∧
        (∃ q, (onToggleClick i s).state.panels.get? i = some q ∧
            q.active = false ∧ ∀ b ∈ q.togglesActive, b = false) ∧
        (onToggleClick i s).state.contentActive = false) := by
  have hact : panelActive s i = p.active := by
    unfold panelActive; rw [hp]
  refine ⟨rfl, rfl, ?_, ?_⟩
  · intro hfalse
    have hstate : (onToggleClick i s).state = showPanel i s := by
      simp only [onToggleClick, togglePanel, hact, hfalse]
      simp
    refine ⟨hstate, ?_, ?_, ?_, ?_⟩
    · rw [hstate]
      unfold panelActive
      rw [showPanel_get_self s i p hp]
      rfl
    · intro j hj
      rw [hstate]
      exact panelActive_showPanel_other s i j hj
    · rw [hstate]
      refine ⟨showEntry (hideEntry p), showPanel_get_self s i p hp, rfl, ?_⟩
      intro b hb
      simp [showEntry] at hb
      exact hb.2
    · rw [hstate]; rfl
  · intro htrue
    have hstate : (onToggleClick i s).state = hidePanel i s := by
      simp only [onToggleClick, togglePanel, hact, htrue]
      simp
    refine ⟨hstate, ?_, ?_, ?_⟩
    · rw [hstate]
      unfold panelActive
      rw [hidePanel_get_self s i p hp]
      rfl
    · rw [hstate]
      refine ⟨hideEntry p, hidePanel_get_self s i p hp, rfl, ?_⟩
      intro b hb
      simp [hideEntry] at hb
      exact hb.2
    · rw [hstate]; rfl

/-- Witness for C5 at a concrete state, covering both branches. -/
theorem toggle_click_flips_panel_witness :
    PanelsState.contentActive
      (onToggleClick 0
        { panels := [⟨false, [false]⟩, ⟨true, [true]⟩], contentActive := true }).state
      = true ∧
    PanelsState.contentActive
      (onToggleClick 1
        { panels := [⟨false, [false]⟩, ⟨true, [true]⟩], contentActive := true }).state
      = false :=
  ⟨((toggle_click_flips_panel
      { panels := [⟨false, [false]⟩, ⟨true, [true]⟩], contentActive := true }
      0 ⟨false, [false]⟩ rfl).2.2.1 rfl).2.2.2.2,
   ((toggle_click_flips_panel
      { panels := [⟨false, [false]⟩, ⟨true, [true]⟩], contentActive := true }
      1 ⟨true, [true]⟩ rfl).2.2.2 rfl).2.2.2⟩

/-- C8: a body click while the body lacks `content-active` is a complete
no-op: the state is unchanged and neither `preventDefault` nor
`stopPropagation` is called. -/
theorem body_click_noop_when_no_panel_active (s : PanelsState)
    (h : s.contentActive = false) :
    onBodyClick s = { state := s, prevented := false, stopped := false } := by
  unfold onBodyClick
  simp [h]

/-- Witness for C8 at a concrete inactive state. -/
theorem body_click_noop_when_no_panel_active_witness :
    onBodyClick { panels := [⟨false, [false]⟩], contentActive := false }
      = { state := { panels := [⟨false, [false]⟩], contentActive := false },
          prevented := false, stopped := false } :=
  body_click_noop_when_no_panel_active _ rfl

/-- C4: `Escape` with the body's `content-active` marker set (the marker
every panel activation sets) deactivates every panel; a `keydown` of
`Escape` while the lightbox is open (which entails a nonempty item list,
since only an anchor click opens it) closes the lightbox and leaves the
panel classes untouched, because the panel-close logic for outside
clicks listens to `click`/`keyup`, not `keydown`. -/
theorem escape_closes_panels_and_lightbox :
    (∀ s : PanelsState, s.contentActive = true →
        (onKeyUp "Escape" s).state = hideAllPanels s ∧
        (∀ j, panelActive (onKeyUp "Escape" s).state j = false) ∧
        (onKeyUp "Escape" s).state.contentActive = false) ∧
    (∀ (s : PanelsState) (i : Nat), (showPanel i s).contentActive = true) ∧
    (∀ p : PageState, p.lb.isOpen = true → p.lb.items.length ≠ 0 →
        (pageKeyDown "Escape" p).lb.isOpen = false ∧
        (pageKeyDown "Escape" p).panels = p.panels) := by
  refine ⟨?_, fun s i => rfl, ?_⟩
  · intro s h
    have hstate : (onKeyUp "Escape" s).state = hideAllPanels s := by
      unfold onKeyUp
      simp [h]
    refine ⟨hstate, ?_, by rw [hstate]; rfl⟩
    intro j
    rw [hstate]
    unfold panelActive
    rw [hideAllPanels_get]
    cases s.panels.get? j <;> simp [hideEntry]
  · intro p hopen hne
    constructor
    · simp only [pageKeyDown, lightboxKeyDown, hopen]
      simp [hne]
    · rfl

/-- Witness for C4 at concrete states. -/
theorem escape_closes_panels_and_lightbox_witness :
    (onKeyUp "Escape"
        { panels := [⟨true, [true]⟩], contentActive := true }).state.contentActive
      = false ∧
    (pageKeyDown "Escape"
        { panels := { panels := [⟨true, [true]⟩], contentActive := true }
          lb := { items := [⟨"a", none⟩], isOpen := true,
                  activeIndex := 0, isLoading := false } }).lb.isOpen = false :=
  ⟨(escape_closes_panels_and_lightbox.1
      { panels := [⟨true, [true]⟩], contentActive := true } rfl).2.2,
   (escape_closes_panels_and_lightbox.2.2
      { panels := { panels := [⟨true, [true]⟩], contentActive := true }
        lb := { items := [⟨"a", none⟩], isOpen := true,
                activeIndex := 0, isLoading := false } }
      rfl (by decide)).1⟩

/-! ## Helper lemmas about the lightbox handlers -/

lemma lightboxKeyDown_escape (s : LightboxState)
    (hopen : s.isOpen = true) (hne : s.items.length ≠ 0) :
    lightboxKeyDown "Escape" s
      = { state := { s with isOpen := false }, prevented := true } := by
  unfold lightboxKeyDown
  simp [hopen, hne]

lemma lightboxKeyDown_right (s : LightboxState)
    (hopen : s.isOpen = true) (hne : s.items.length ≠ 0) :
    lightboxKeyDown "ArrowRight" s
      = { state :=
            { s with
                activeIndex := nextIndex s.activeIndex s.items.length
                isLoading := true }
          prevented := true } := by
  unfold lightboxKeyDown
  simp [hopen, hne]

lemma lightboxKeyDown_space (s : LightboxState)
    (hopen : s.isOpen = true) (hne : s.items.length ≠ 0) :
    lightboxKeyDown " " s
      = { state :=
            { s with
                activeIndex := nextIndex s.activeIndex s.items.length
                isLoading := true }
          prevented := true } := by
  unfold lightboxKeyDown
  simp [hopen, hne]

lemma lightboxKeyDown_left (s : LightboxState)
    (hopen : s.isOpen = true) (hne : s.items.length ≠ 0) :
    lightboxKeyDown "ArrowLeft" s
      = { state :=
            { s with
                activeIndex := prevIndex s.activeIndex s.items.length
                isLoading := true }
          prevented := true } := by
  unfold lightboxKeyDown
  simp [hopen, hne]

lemma keyDown_isLoading (key : String) (s : LightboxState)
    (h : s.isLoading = true) :
    (lightboxKeyDown key s).state.isLoading = true := by
  unfold lightboxKeyDown
  split_ifs <;> simp_all

lemma prevIndex_int (i n : Nat) (h : n ≠ 0) :
    (prevIndex i n : Int) = ((i : Int) - 1 + n) % (n : Int) := by
  unfold prevIndex
  rw [Int.toNat_of_nonneg]
  exact Int.emod_nonneg _ (by exact_mod_cast h)

lemma rendered_of (s : LightboxState)
    (hopen : s.isOpen = true) (hidx : s.activeIndex < s.items.length) :
    rendered s = true := by
  have hg := List.get?_eq_get hidx
  unfold rendered activeItem
  rw [hopen, hg]
  rfl

lemma isLoading_cleared_only_by_image_events (e : LbEvent) (s : LightboxState)
    (h1 : s.isLoading = true) (h2 : (lbStep e s).isLoading = false) :
    e = LbEvent.imgLoad ∨ e = LbEvent.imgError ∨
      e = LbEvent.preloadLoad ∨ e = LbEvent.preloadError := by
  cases e with
  | anchorClick i => simp [lbStep, anchorClick] at h2
  | keyDown k =>
    have := keyDown_isLoading k s h1
    simp only [lbStep] at h2
    simp [this] at h2
  | navPreviousClick =>
    simp only [lbStep] at h2
    split at h2 <;> simp_all [navPreviousClick]
  | navNextClick =>
    simp only [lbStep] at h2
    split at h2 <;> simp_all [navNextClick]
  | closerClick =>
    simp only [lbStep] at h2
    split at h2 <;> simp_all
  | overlayClick =>
    simp only [lbStep] at h2
    split at h2 <;> simp_all
  | popupBackgroundClick =>
    simp only [lbStep] at h2
    split at h2 <;> simp_all
  | imgLoad => exact Or.inl rfl
  | imgError => exact Or.inr (Or.inl rfl)
  | preloadLoad => exact Or.inr (Or.inr (Or.inl rfl))
  | preloadError => exact Or.inr (Or.inr (Or.inr rfl))

/-- C1: while the lightbox is open over `N ≥ 1` items at index `i < N`,
`ArrowRight` and the `nav-next` control set the index to `(i+1) mod N`,
and `ArrowLeft` and the `nav-previous` control set it to
`(i-1+N) mod N`; with three items, opening item 0 and pressing
`ArrowRight` twice yields the index sequence 0, 1, 2. -/
theorem lightbox_navigation (s : LightboxState)
    (hopen : s.isOpen = true) (hpos : 1 ≤ s.items.length)
    (hidx : s.activeIndex < s.items.length) :
    ((lightboxKeyDown "ArrowRight" s).state.activeIndex
        = (s.activeIndex + 1) % s.items.length) ∧
    ((lbStep LbEvent.navNextClick s).activeIndex
        = (s.activeIndex + 1) % s.items.length) ∧
    (((lightboxKeyDown "ArrowLeft" s).state.activeIndex : Int)
        = ((s.activeIndex : Int) - 1 + s.items.length) % (s.items.length : Int)) ∧
    (((lbStep LbEvent.navPreviousClick s).activeIndex : Int)
        = ((s.activeIndex : Int) - 1 + s.items.length) % (s.items.length : Int)) ∧
    ((anchorClick 0
        { items := [⟨"a", none⟩, ⟨"b", none⟩, ⟨"c", none⟩],
          isOpen := false, activeIndex := 0, isLoading := false }).state.activeIndex
        = 0 ∧
      (lightboxKeyDown "ArrowRight"
        (anchorClick 0
          { items := [⟨"a", none⟩, ⟨"b", none⟩, ⟨"c", none⟩],
            isOpen := false, activeIndex := 0,
            isLoading := false }).state).state.activeIndex = 1 ∧
      (lightboxKeyDown "ArrowRight"
        (lightboxKeyDown "ArrowRight"
          (anchorClick 0
            { items := [⟨"a", none⟩, ⟨"b", none⟩, ⟨"c", none⟩],
              isOpen := false, activeIndex := 0,
              isLoading := false }).state).state).state.activeIndex = 2) := by
  have hne : s.items.length ≠ 0 := by omega
  have hrend : rendered s = true := rendered_of s hopen hidx
  refine ⟨?_, ?_, ?_, ?_, by decide, by decide, by decide⟩
  · rw [lightboxKeyDown_right s hopen hne]
    rfl
  · simp only [lbStep, hrend, if_true]
    rfl
  · rw [lightboxKeyDown_left s hopen hne]
    exact prevIndex_int s.activeIndex s.items.length hne
  · simp only [lbStep, hrend, if_true]
    exact prevIndex_int s.activeIndex s.items.length hne

/-- Witness for C1 at a concrete three-item open state. -/
theorem lightbox_navigation_witness :
    (lightboxKeyDown "ArrowRight"
      { items := [⟨"a", none⟩, ⟨"b", none⟩, ⟨"c", none⟩],
        isOpen := true, activeIndex := 0, isLoading := false }).state.activeIndex
      = (0 + 1) % 3 :=
  (lightbox_navigation
    { items := [⟨"a", none⟩, ⟨"b", none⟩, ⟨"c", none⟩],
      isOpen := true, activeIndex := 0, isLoading := false }
    rfl (by decide) (by decide)).1

/-- C3: clicking a gallery anchor opens the lightbox with the loading
flag set; the load and error callbacks of the target resource are the
same state transition (clearing the loading flag), they do clear it, and
no other event ever clears the loading flag. -/
theorem lightbox_loading_lifecycle :
    (∀ (i : Nat) (s : LightboxState),
        (anchorClick i s).state.isLoading = true ∧
        (anchorClick i s).state.isOpen = true) ∧
    (∀ s : LightboxState, lbStep LbEvent.imgLoad s = lbStep LbEvent.imgError s) ∧
    (∀ s : LightboxState,
        lbStep LbEvent.preloadLoad s = lbStep LbEvent.preloadError s) ∧
    (∀ s : LightboxState, rendered s = true →
        (lbStep LbEvent.imgLoad s).isLoading = false) ∧
    (∀ s : LightboxState, preloadIssued s = true →
        (lbStep LbEvent.preloadLoad s).isLoading = false) ∧
    (∀ (e : LbEvent) (s : LightboxState), s.isLoading = true →
        (lbStep e s).isLoading = false →
        e = LbEvent.imgLoad ∨ e = LbEvent.imgError ∨
          e = LbEvent.preloadLoad ∨ e = LbEvent.preloadError) := by
  refine ⟨fun i s => ⟨rfl, rfl⟩, fun s => rfl, fun s => rfl, ?_, ?_,
    isLoading_cleared_only_by_image_events⟩
  · intro s h
    simp [lbStep, h, handleComplete]
  · intro s h
    simp [lbStep, h, handleComplete]

/-- Witness for C3 at concrete states. -/
theorem lightbox_loading_lifecycle_witness :
    (anchorClick 0
      { items := [⟨"a", none⟩], isOpen := false,
        activeIndex := 0, isLoading := false }).state.isLoading = true ∧
    (lbStep LbEvent.imgLoad
      { items := [⟨"a", none⟩], isOpen := true,
        activeIndex := 0, isLoading := true }).isLoading = false :=
  ⟨(lightbox_loading_lifecycle.1 0
      { items := [⟨"a", none⟩], isOpen := false,
        activeIndex := 0, isLoading := false }).1,
   lightbox_loading_lifecycle.2.2.2.1
      { items := [⟨"a", none⟩], isOpen := true,
        activeIndex := 0, isLoading := true } (by decide)⟩

/-- C9: while the lightbox is open with a nonempty item list, the Space
key is handled identically to ArrowRight: default prevented, index
advanced to `(i+1) mod N`, loading flag set. -/
theorem space_key_is_arrow_right (s : LightboxState)
    (hopen : s.isOpen = true) (hne : s.items.length ≠ 0) :
    lightboxKeyDown " " s = lightboxKeyDown "ArrowRight" s ∧
    (lightboxKeyDown " " s).prevented = true ∧
    (lightboxKeyDown " " s).state.activeIndex
      = (s.activeIndex + 1) % s.items.length ∧
    (lightboxKeyDown " " s).state.isLoading = true := by
  rw [lightboxKeyDown_space s hopen hne, lightboxKeyDown_right s hopen hne]
  exact ⟨rfl, rfl, rfl, rfl⟩

/-- Witness for C9 at a concrete open state. -/
theorem space_key_is_arrow_right_witness :
    lightboxKeyDown " "
        { items := [⟨"a", none⟩, ⟨"b", none⟩], isOpen := true,
          activeIndex := 0, isLoading := false }
      = lightboxKeyDown "ArrowRight"
        { items := [⟨"a", none⟩, ⟨"b", none⟩], isOpen := true,
          activeIndex := 0, isLoading := false } :=
  (space_key_is_arrow_right
    { items := [⟨"a", none⟩, ⟨"b", none⟩], isOpen := true,
      activeIndex := 0, isLoading := false } rfl (by decide)).1

/-- C10: when the active item's link target is the empty string the
preload effect issues no preload, its callbacks never fire (so they
never clear the loading flag), and the loading flag can only be cleared
by the visible image element's own load or error events, which do clear
it. -/
theorem empty_href_keeps_loading (s : LightboxState) (it : GalleryItem)
    (hopen : s.isOpen = true) (hit : activeItem s = some it)
    (hhref : it.href = "") :
    preloadIssued s = false ∧
    lbStep LbEvent.preloadLoad s = s ∧
    lbStep LbEvent.preloadError s = s ∧
    (∀ e, s.isLoading = true → (lbStep e s).isLoading = false →
        e = LbEvent.imgLoad ∨ e = LbEvent.imgError) ∧
    (lbStep LbEvent.imgLoad s).isLoading = false ∧
    (lbStep LbEvent.imgError s).isLoading = false := by
  have hpi : preloadIssued s = false := by
    unfold preloadIssued
    rw [hit]
    simp [hhref]
  have hrend : rendered s = true := by
    unfold rendered
    rw [hopen, hit]
    rfl
  have hplod : lbStep LbEvent.preloadLoad s = s := by simp [lbStep, hpi]
  have hploe : lbStep LbEvent.preloadError s = s := by simp [lbStep, hpi]
  refine ⟨hpi, hplod, hploe, ?_, ?_, ?_⟩
  · intro e h1 h2
    rcases isLoading_cleared_only_by_image_events e s h1 h2 with h | h | h | h
    · exact Or.inl h
    · exact Or.inr h
    · rw [h, hplod] at h2
      rw [h1] at h2
      exact absurd h2 (by decide)
    · rw [h, hploe] at h2
      rw [h1] at h2
      exact absurd h2 (by decide)
  · simp [lbStep, hrend, handleComplete]
  · simp [lbStep, hrend, handleComplete]

/-- Witness for C10 at a concrete open state whose active item has an
empty link target. -/
theorem empty_href_keeps_loading_witness :
    preloadIssued
        { items := [⟨"", none⟩], isOpen := true,
          activeIndex := 0, isLoading := true } = false ∧
    (lbStep LbEvent.imgLoad
        { items := [⟨"", none⟩], isOpen := true,
          activeIndex := 0, isLoading := true }).isLoading = false :=
  ⟨(empty_href_keeps_loading
      { items := [⟨"", none⟩], isOpen := true,
        activeIndex := 0, isLoading := true } ⟨"", none⟩ rfl rfl rfl).1,
   (empty_href_keeps_loading
      { items := [⟨"", none⟩], isOpen := true,
        activeIndex := 0, isLoading := true } ⟨"", none⟩ rfl rfl rfl).2.2.2.2.1⟩

/-! ## Footer relocation and gallery scan -/

lemma foldl_updateLocation (ws : List Nat) (w0 : Nat) :
    ws.foldl (fun _ w => updateLocation (mediaQueryMatches w))
      (updateLocation (mediaQueryMatches w0))
      = updateLocation (mediaQueryMatches (ws.getLastD w0)) := by
  induction ws generalizing w0 with
  | nil => rfl
  | cons a l ih =>
    rw [List.foldl_cons, List.getLastD_cons]
    exact ih a

/-- C6: after setup and after every media-query change event, the footer
copyright block sits in the narrow-layout container exactly when the most
recently observed viewport width is at most 980px, i.e. when the
`(max-width: 980px)` query matches, and in its original container
otherwise; the location is recomputed from the latest width. -/
theorem footer_copyright_location (w0 : Nat) (ws : List Nat) :
    footerCopyrightLocation w0 ws
      = updateLocation (mediaQueryMatches (ws.getLastD w0)) ∧
    (footerCopyrightLocation w0 ws = CopyrightLocation.narrowContainer
        ↔ ws.getLastD w0 ≤ 980) ∧
    (footerCopyrightLocation w0 ws = CopyrightLocation.originalParent
        ↔ ¬ ws.getLastD w0 ≤ 980) := by
  have h : footerCopyrightLocation w0 ws
      = updateLocation (mediaQueryMatches (ws.getLastD w0)) :=
    foldl_updateLocation ws w0
  refine ⟨h, ?_, ?_⟩ <;> rw [h] <;> unfold updateLocation mediaQueryMatches <;>
    by_cases hc : ws.getLastD w0 ≤ 980 <;> simp [hc]

/-- C7: the gallery item list has one item per scanned anchor in document
order; each item's link target is the anchor's `href` attribute (empty
string when absent) and its caption is the concatenated outer markup of
the anchor's parent's other children, absent exactly when that
concatenation is empty. -/
theorem gallery_items_from_anchors (anchors : List ThumbAnchor) :
    (getGalleryItems anchors).length = anchors.length ∧
    (∀ (k : Nat) (a : ThumbAnchor), anchors.get? k = some a →
        ∃ it, (getGalleryItems anchors).get? k = some it ∧
          it.href = a.hrefAttr.getD "" ∧
          (captionString a ≠ "" → it.caption = some (captionString a)) ∧
          (captionString a = "" → it.caption = none)) := by
  constructor
  · simp [getGalleryItems]
  · intro k a hk
    unfold getGalleryItems
    rw [List.get?_map, hk]
    refine ⟨_, rfl, rfl, ?_, ?_⟩
    · intro h
      show (if captionString a = "" then none else some (captionString a))
        = some (captionString a)
      rw [if_neg h]
    · intro h
      show (if captionString a = "" then none else some (captionString a)) = none
      rw [if_pos h]

/-- Witness for C7 at a concrete one-anchor page. -/
theorem gallery_items_from_anchors_witness :
    ∃ it,
      (getGalleryItems
          [⟨some "img/a.jpg",
            some [SibNode.self, SibNode.elem "<h2>A</h2>"]⟩]).get? 0 = some it ∧
      it.href
        = Option.getD (some "img/a.jpg") "" ∧
      (captionString
          ⟨some "img/a.jpg", some [SibNode.self, SibNode.elem "<h2>A</h2>"]⟩ ≠ ""
        → it.caption
          = some (captionString
              ⟨some "img/a.jpg", some [SibNode.self, SibNode.elem "<h2>A</h2>"]⟩)) ∧
      (captionString
          ⟨some "img/a.jpg", some [SibNode.self, SibNode.elem "<h2>A</h2>"]⟩ = ""
        → it.caption = none) :=
  (gallery_items_from_anchors
      [⟨some "img/a.jpg", some [SibNode.self, SibNode.elem "<h2>A</h2>"]⟩]).2
    0 ⟨some "img/a.jpg", some [SibNode.self, SibNode.elem "<h2>A</h2>"]⟩ rfl

end SiteScripts
